import Mathlib

/-!
Verification development for the World Bank population infographic script
(`22077669.py`).  The script loads a wide-format World Bank CSV with pandas,
drops footer rows and unused columns, renames year columns, builds a
transposed companion view, and then four chart builders (bar, line, pie,
histogram) each filter one Series value, reshape, coerce types and draw.

We shallowly embed the tabular data model and every pandas operation the
script uses.  Cells are `na` (pandas NaN), strings (object dtype as read
from CSV), rationals (float dtype; modelled exactly by `ℚ`) or integers.
Fallible pandas calls (column lookups, `drop`, `astype`, `melt`, `dropna`,
`sort_values`) return `Option`, `none` standing for a raised exception.
-/

/-- A single cell of a pandas DataFrame as used by the script:
missing (`NaN`), a string (object dtype from `read_csv`), a float
(modelled exactly as a rational) or an integer. -/
inductive Cell where
  | na : Cell
  | str : String → Cell
  | num : ℚ → Cell
  | int : ℤ → Cell
deriving DecidableEq, Repr

/-- A DataFrame: a list of column labels and a list of rows.  Each row is a
list of cells positionally aligned with `header`. -/
structure Table where
  header : List String
  rows : List (List Cell)
deriving DecidableEq, Repr

/-- `True` exactly on the missing marker (pandas `NaN`). -/
def Cell.isNA : Cell → Bool
  | .na => true
  | _ => false

/-- Pandas elementwise comparison `column == v` for a string literal `v`:
a string cell compares by string equality, every other cell (including
`NaN`) compares unequal. -/
def Cell.eqStr (c : Cell) (v : String) : Bool :=
  match c with
  | .str s => s == v
  | _ => false

/-- Value of the decimal-digit string `cs` (Python `int` on a digit
string), e.g. `digitsVal ['2','0','1','5'] = 2015`. -/
def digitsVal (cs : List Char) : ℕ :=
  cs.foldl (fun a c => a * 10 + (c.toNat - 48)) 0

/-- Parse a nonempty all-digit character list as a natural number;
`none` otherwise. -/
def parseDigits (cs : List Char) : Option ℕ :=
  if !cs.isEmpty && cs.all Char.isDigit then some (digitsVal cs) else none

/-- Split a character list at the first `'.'`:
returns the part before it and, when a dot is present, the part after. -/
def splitDot (cs : List Char) : List Char × Option (List Char) :=
  match cs.dropWhile (fun c => c ≠ '.') with
  | [] => (cs.takeWhile (fun c => c ≠ '.'), none)
  | _ :: tl => (cs.takeWhile (fun c => c ≠ '.'), some tl)

/-- Python `float(s)` as used on World Bank value strings: an optional
leading minus sign, then a decimal literal `digits` or `digits.digits`.
Exact rational semantics stands in for IEEE doubles; the script only
compares and sums these values. -/
def parseFloat (s : String) : Option ℚ :=
  let (neg, body) :=
    match s.data with
    | '-' :: rest => (true, rest)
    | cs => (false, cs)
  let signed : ℚ → ℚ := fun q => if neg then -q else q
  match splitDot body with
  | (ip, none) => (parseDigits ip).map (fun n => signed n)
  | (ip, some fp) =>
      if fp.all (fun c => c ≠ '.') then
        match parseDigits ip, parseDigits fp with
        | some n, some m => some (signed (n + (m : ℚ) / 10 ^ fp.length))
        | _, _ => none
      else none

/-- Python `int(s)`: optional minus sign then digits. -/
def parseInt (s : String) : Option ℤ :=
  match s.data with
  | '-' :: rest => (parseDigits rest).map (fun n => -(n : ℤ))
  | cs => (parseDigits cs).map (fun n => (n : ℤ))

/-- `col.split(' ')[0]` from line 26 of the script: the characters of the
header before its first space, e.g. `"2015 [YR2015]" ↦ "2015"`. -/
def splitSpaceHead (s : String) : String :=
  String.mk (s.data.takeWhile (fun c => c ≠ ' '))

/-- Python `str.isnumeric()` restricted to the ASCII digit strings that
occur as World Bank year headers: nonempty and all decimal digits. -/
def isNumericStr (s : String) : Bool :=
  !s.data.isEmpty && s.data.all Char.isDigit

/-- Position of column `c` in the header, `none` when absent (pandas
raises `KeyError`). -/
def colIdx? (t : Table) (c : String) : Option ℕ :=
  t.header.findIdx? (fun h => h == c)

/-- The cell of row `r` in column position `i`. -/
def cellAt (r : List Cell) (i : ℕ) : Cell :=
  r.getD i Cell.na

/-- Column `j` of the table, top to bottom. -/
def getColumn (t : Table) (j : ℕ) : List Cell :=
  t.rows.map (fun r => cellAt r j)

/-- `df.drop(columns=labels)` (lines 18–25): fails when any label is
absent, otherwise removes every listed column from header and rows. -/
def dropColumns (t : Table) (labels : List String) : Option Table :=
  if labels.all (fun l => t.header.contains l) then
    some { header := t.header.filter (fun c => !labels.contains c),
           rows := t.rows.map (fun r =>
             ((t.header.zip r).filter (fun p => !labels.contains p.1)).map (fun p => p.2)) }
  else none

/-- `df.columns = [col.split(' ')[0] for col in df.columns]` (line 26). -/
def renameCols (t : Table) : Table :=
  { t with header := t.header.map splitSpaceHead }

/-- The transposed companion view built on lines 27–32: rows are years,
columns are the values of the first wide column, `index` holds the
integer-coerced numeric labels and `years` the derived `Years` column. -/
structure TransTable where
  colNames : List Cell
  index : List ℕ
  rows : List (List Cell)
  years : List ℕ
deriving DecidableEq, Repr

/-- Lines 27–32 of the script: transpose the wide table (one transposed
row per wide column, labelled by that column's name), promote the first
transposed row to the column header and drop it, keep only rows whose
label `str.isnumeric()`, coerce those labels with `pd.to_numeric`, and add
a `Years` column equal to the index. -/
def mkTranspose (w : Table) : TransTable :=
  let tRows := w.header.enum.map (fun p => (p.2, getColumn w p.1))
  let newCols := (tRows.headD ("", [])).2
  let kept := (tRows.drop 1).filter (fun p => isNumericStr p.1)
  { colNames := newCols
    index := kept.map (fun p => digitsVal p.1.data)
    rows := kept.map (fun p => p.2)
    years := kept.map (fun p => digitsVal p.1.data) }

/-- The 14 labels dropped on lines 18–25. -/
def dropLabels : List String :=
  ["Country Code", "Series Code",
   "2001 [YR2001]", "2002 [YR2002]", "2003 [YR2003]", "2004 [YR2004]",
   "2005 [YR2005]", "2006 [YR2006]", "2007 [YR2007]", "2008 [YR2008]",
   "2009 [YR2009]", "2010 [YR2010]", "2011 [YR2011]", "2012 [YR2012]"]

/-- `process_world_bank_data` (lines 6–34) applied to the parsed CSV:
`.iloc[:-5]` keeps all but the last five rows (Python slicing clamps at
zero, so fewer than five rows yields an empty frame, not an error), then
the 14 columns are dropped, headers are trimmed to their first
space-separated token, and the transposed view is built. -/
def process_world_bank_data (t : Table) : Option (Table × TransTable) :=
  let t1 : Table := { t with rows := t.rows.take (t.rows.length - 5) }
  match dropColumns t1 dropLabels with
  | none => none
  | some t2 =>
      let wide := renameCols t2
      some (wide, mkTranspose wide)

/-- `df[df['Series'] == v]` as on lines 47, 80, 116 and 147: boolean-mask
row selection, which in pandas returns a fresh copy of the matching rows.
Fails when the `Series` column is absent. -/
def seriesEq (v : String) (t : Table) : Option Table :=
  match colIdx? t "Series" with
  | none => none
  | some i => some { t with rows := t.rows.filter (fun r => (cellAt r i).eqStr v) }

/-- `df.dropna(subset=[c])` (line 120): drop the rows whose cell in
column `c` is missing. -/
def dropna (t : Table) (c : String) : Option Table :=
  match colIdx? t c with
  | none => none
  | some i => some { t with rows := t.rows.filter (fun r => !(cellAt r i).isNA) }

/-- `astype(float)` on one cell: `NaN` stays `NaN`, strings must parse as
a decimal literal, numbers pass through. -/
def Cell.toFloat? : Cell → Option Cell
  | .na => some .na
  | .str s => (parseFloat s).map .num
  | .num q => some (.num q)
  | .int n => some (.num (n : ℚ))

/-- `astype(int)` on one cell: `NaN` raises, strings must parse as an
integer literal, floats truncate toward zero. -/
def Cell.toIntC? : Cell → Option Cell
  | .na => none
  | .str s => (parseInt s).map .int
  | .num q => some (.int (q.num.tdiv q.den))
  | .int n => some (.int n)

/-- `df[c] = df[c].astype(float)` (lines 56, 89, 121, 155): coerce every
cell of column `c`; any unparseable present value raises. -/
def astypeFloat (t : Table) (c : String) : Option Table :=
  match colIdx? t c with
  | none => none
  | some i =>
      (t.rows.mapM (fun r => ((cellAt r i).toFloat?).map (fun v => r.set i v))).map
        (fun rs => { t with rows := rs })

/-- `df[c] = df[c].astype(int)` (lines 57, 90, 156). -/
def astypeInt (t : Table) (c : String) : Option Table :=
  match colIdx? t c with
  | none => none
  | some i =>
      (t.rows.mapM (fun r => ((cellAt r i).toIntC?).map (fun v => r.set i v))).map
        (fun rs => { t with rows := rs })

/-- `pd.melt(df, id_vars=[idVar], value_vars=valueVars, var_name=varName,
value_name=valueName)` (lines 49–54, 82–87, 148–153): one output block per
value variable, in order; each block has one row `(id, varLabel, value)`
per input row.  Fails when the id variable or a value variable is absent. -/
def melt (t : Table) (idVar : String) (valueVars : List String)
    (varName valueName : String) : Option Table :=
  match colIdx? t idVar with
  | none => none
  | some i =>
      if valueVars.all (fun y => t.header.contains y) then
        some { header := [idVar, varName, valueName],
               rows := valueVars.flatMap (fun y =>
                 let j := (colIdx? t y).getD 0
                 t.rows.map (fun r => [cellAt r i, Cell.str y, cellAt r j])) }
      else none

/-- Numeric sort key of row `r` at column position `i`; by the time the
script sorts, every cell in that column is a float. -/
def keyVal (i : ℕ) (r : List Cell) : ℚ :=
  match cellAt r i with
  | .num q => q
  | .int n => (n : ℚ)
  | _ => 0

/-- The descending row order used by `sort_values(by=c, ascending=False)`. -/
def descBy (i : ℕ) : List Cell → List Cell → Prop :=
  fun r s => keyVal i s ≤ keyVal i r

instance (i : ℕ) : DecidableRel (descBy i) :=
  fun _ _ => inferInstanceAs (Decidable (_ ≤ _))

/-- `df.sort_values(by=c, ascending=False)` (line 122): reorder rows so
the values of column `c` are non-increasing. -/
def sortValuesDesc (t : Table) (c : String) : Option Table :=
  match colIdx? t c with
  | none => none
  | some i => some { t with rows := t.rows.insertionSort (descBy i) }

/-- `df.head(n)` (line 124). -/
def headRows (t : Table) (n : ℕ) : Table :=
  { t with rows := t.rows.take n }

/-- Series literal of the pie chart (line 116). -/
def largestCitySeries : String :=
  "Population in the largest city (% of urban population)"

/-- Series literal of the bar and line charts (lines 47 and 80). -/
def urbanSeries : String := "Urban population growth (annual %)"

/-- Series literal of the histogram (line 147). -/
def ruralSeries : String := "Rural population"

/-- The five melted year columns (lines 51–52, 84–85, 150–151). -/
def meltYears : List String := ["2015", "2016", "2017", "2018", "2019"]

/-- Pie builder, stage 1 (line 116): filter to the largest-city series. -/
def pieFiltered (t : Table) : Option Table :=
  seriesEq largestCitySeries t

/-- Pie builder, stage 2 (line 120): drop rows with missing `2019`. -/
def pieDropped (t : Table) : Option Table :=
  (pieFiltered t).bind (fun d => dropna d "2019")

/-- Pie builder, stage 3 (line 121): coerce the `2019` column to float. -/
def pieCoerced (t : Table) : Option Table :=
  (pieDropped t).bind (fun d => astypeFloat d "2019")

/-- Pie builder, stage 4 (line 122): sort by `2019` descending. -/
def pieSorted (t : Table) : Option Table :=
  (pieCoerced t).bind (fun d => sortValuesDesc d "2019")

/-- Pie builder, stage 5 (line 124): `top_countries = .head(6)`. -/
def pieTop (t : Table) : Option Table :=
  (pieSorted t).map (fun d => headRows d 6)

/-- The percentage labels `ax.pie(values, autopct='%1.1f%%')` renders:
each wedge shows its fraction of the total, times 100. -/
def pieWedgePercents (vs : List ℚ) : List ℚ :=
  vs.map (fun v => v / vs.sum * 100)

/-- Data preparation of `barplot_urban_growth_data` (lines 47–57): filter
the urban-growth series, melt the 2015–2019 columns over `Country`, then
coerce the measure to float and `Year` to int. -/
def barplot_urban_growth_data (t : Table) : Option Table :=
  (seriesEq urbanSeries t).bind fun d =>
  (melt d "Country" meltYears "Year" "Urban Population Growth (Annual %)").bind fun m =>
  (astypeFloat m "Urban Population Growth (Annual %)").bind fun m' =>
  astypeInt m' "Year"

/-- Data preparation of `lineplot_urban_growth_data` (lines 80–90),
transcribed separately from its own lines of the script. -/
def lineplot_urban_growth_data (t : Table) : Option Table :=
  (seriesEq urbanSeries t).bind fun d =>
  (melt d "Country" meltYears "Year" "Urban Population Growth (Annual %)").bind fun m =>
  (astypeFloat m "Urban Population Growth (Annual %)").bind fun m' =>
  astypeInt m' "Year"

/-- Data preparation of `histogram_rural_population` (lines 147–156). -/
def histogram_rural_population (t : Table) : Option Table :=
  (seriesEq ruralSeries t).bind fun d =>
  (melt d "Country" meltYears "Year" "Rural Population").bind fun m =>
  (astypeFloat m "Rural Population").bind fun m' =>
  astypeInt m' "Year"

/-! ### Variable-store model of the chart builders

To state that no builder alters the table bound to `world_bank_data`, we
model the Python frames a builder's local names end up bound to.  Pandas
boolean-mask selection and `melt` return fresh frames, and each in-place
column assignment (`df[c] = df[c].astype(...)`) mutates only the derived
frame, so a builder's effect on the name environment is: the shared
`world_bank_data` binding is read, and the builder's own local names are
set to the frames they hold when the builder returns. -/

/-- A store of named DataFrames: the bindings visible to the script. -/
abbrev Store : Type := List (String × Table)

/-- Look up the table bound to name `k`. -/
def Store.getTable (s : Store) (k : String) : Option Table :=
  (List.find? (fun p => p.1 == k) s).map (fun p => p.2)

/-- Bind name `k` to table `t`, overwriting an existing binding. -/
def Store.setTable (s : Store) (k : String) (t : Table) : Store :=
  match s with
  | [] => [(k, t)]
  | p :: rest => if p.1 == k then (k, t) :: rest else p :: Store.setTable rest k t

/-- `barplot_urban_growth_data` (lines 47–57) as a store program: read
`world_bank_data`, bind `urban_growth_data` to the filtered copy and
`urban_growth_data_melted` to the melted frame after its two in-place
column coercions. -/
def barBuilderStore (s : Store) : Option Store :=
  (s.getTable "world_bank_data").bind fun wbd =>
  (seriesEq urbanSeries wbd).bind fun d =>
  (melt d "Country" meltYears "Year" "Urban Population Growth (Annual %)").bind fun m =>
  (astypeFloat m "Urban Population Growth (Annual %)").bind fun m' =>
  (astypeInt m' "Year").map fun m'' =>
  (s.setTable "urban_growth_data" d).setTable "urban_growth_data_melted" m''

/-- `lineplot_urban_growth_data` (lines 80–90) as a store program. -/
def lineBuilderStore (s : Store) : Option Store :=
  (s.getTable "world_bank_data").bind fun wbd =>
  (seriesEq urbanSeries wbd).bind fun d =>
  (melt d "Country" meltYears "Year" "Urban Population Growth (Annual %)").bind fun m =>
  (astypeFloat m "Urban Population Growth (Annual %)").bind fun m' =>
  (astypeInt m' "Year").map fun m'' =>
  (s.setTable "urban_growth_data" d).setTable "urban_growth_data_melted" m''

/-- `pie_chart_largest_city_population` (lines 116–124) as a store
program: `largest_city_data` is rebound by the filter, `dropna` and sort,
mutated in place by the float coercion, and `top_countries` holds the
first six rows. -/
def pieBuilderStore (s : Store) : Option Store :=
  (s.getTable "world_bank_data").bind fun wbd =>
  (seriesEq largestCitySeries wbd).bind fun d =>
  (dropna d "2019").bind fun d' =>
  (astypeFloat d' "2019").bind fun d'' =>
  (sortValuesDesc d'' "2019").map fun dFin =>
  (s.setTable "largest_city_data" dFin).setTable "top_countries" (headRows dFin 6)

/-- `histogram_rural_population` (lines 147–156) as a store program. -/
def histBuilderStore (s : Store) : Option Store :=
  (s.getTable "world_bank_data").bind fun wbd =>
  (seriesEq ruralSeries wbd).bind fun d =>
  (melt d "Country" meltYears "Year" "Rural Population").bind fun m =>
  (astypeFloat m "Rural Population").bind fun m' =>
  (astypeInt m' "Year").map fun m'' =>
  (s.setTable "rural_population_data" d).setTable "rural_population_data_melted" m''

/-- The end-to-end pipeline of the script's top level (lines 166–213):
process the parsed CSV, run all four builders on the wide table, and only
then write `22077669.png`.  The result is `some` exactly when the image
file is produced; any builder failure aborts with no output. -/
def runPipeline (t : Table) : Option Table :=
  (process_world_bank_data t).bind fun p =>
  (barplot_urban_growth_data p.1).bind fun _ =>
  (lineplot_urban_growth_data p.1).bind fun _ =>
  (pieTop p.1).bind fun _ =>
  (histogram_rural_population p.1).map fun _ => p.1

/-- `xs` dominates `ys` in column `i`: every row of `xs` has a key at
least every key of `ys`.  Captures "the selected rows carry the highest
values". -/
def dominatesAll (i : ℕ) (xs ys : List (List Cell)) : Bool :=
  xs.all (fun x => ys.all (fun y => decide (keyVal i y ≤ keyVal i x)))

/-! ### Concrete tables used to exercise the theorems -/

/-- Header of a raw World Bank CSV as described in the spec: country and
series name/code columns, the 12 dropped year columns, and the five
retained ones. -/
def rawHeader : List String :=
  ["Country Name", "Country Code", "Series Name", "Series Code",
   "2001 [YR2001]", "2002 [YR2002]", "2003 [YR2003]", "2004 [YR2004]",
   "2005 [YR2005]", "2006 [YR2006]", "2007 [YR2007]", "2008 [YR2008]",
   "2009 [YR2009]", "2010 [YR2010]", "2011 [YR2011]", "2012 [YR2012]",
   "2015 [YR2015]", "2016 [YR2016]", "2017 [YR2017]", "2018 [YR2018]",
   "2019 [YR2019]"]

/-- A raw data row: country, codes, series, twelve filler year values and
the five retained year values. -/
def rawRow (c s : String) (ys : List String) : List Cell :=
  [Cell.str c, Cell.str "CC", Cell.str s, Cell.str "SC"] ++
    List.replicate 12 (Cell.str "0") ++ ys.map Cell.str

/-- A footnote row, as in the five trailing metadata rows of the CSV. -/
def footerRow : List Cell := List.replicate 21 Cell.na

/-- A well-formed raw table: two data rows plus five footer rows. -/
def exRaw : Table :=
  ⟨rawHeader,
   [rawRow "Aland" "Urban population growth (annual %)" ["1", "2", "3", "4", "5"],
    rawRow "Bland" "Urban population growth (annual %)" ["2", "3", "4", "5", "6"]] ++
     List.replicate 5 footerRow⟩

/-- A raw table with only three rows — fewer than the five the script
tries to drop. -/
def exShort : Table :=
  ⟨rawHeader,
   [rawRow "Aland" "Urban population growth (annual %)" ["1", "2", "3", "4", "5"],
    rawRow "Bland" "Urban population growth (annual %)" ["2", "3", "4", "5", "6"],
    rawRow "Cland" "Urban population growth (annual %)" ["3", "4", "5", "6", "7"]]⟩

/-- A raw table whose header is missing `Series Code`, one of the 14
columns the script drops. -/
def exMissing : Table :=
  ⟨rawHeader.erase "Series Code", []⟩

/-- Header of the processed wide table. -/
def wideHeader : List String :=
  ["Country", "Series", "2015", "2016", "2017", "2018", "2019"]

/-- A wide-table row of the largest-city series with 2019 value `v`. -/
def pieRow (c v : String) : List Cell :=
  [Cell.str c, Cell.str largestCitySeries,
   Cell.str "1", Cell.str "1", Cell.str "1", Cell.str "1", Cell.str v]

/-- A wide table with seven largest-city rows, 2019 values unsorted. -/
def exPieWide : Table :=
  ⟨wideHeader,
   [pieRow "A" "30", pieRow "B" "40", pieRow "C" "10", pieRow "D" "35",
    pieRow "E" "20", pieRow "F" "15", pieRow "G" "25"]⟩

/-- A wide table in which one largest-city row has a missing 2019 cell. -/
def exPieNA : Table :=
  ⟨wideHeader,
   [pieRow "A" "12",
    [Cell.str "B", Cell.str largestCitySeries,
     Cell.str "1", Cell.str "1", Cell.str "1", Cell.str "1", Cell.na],
    pieRow "C" "7"]⟩

/-- A wide table in which one largest-city row has a present but
non-numeric 2019 cell. -/
def exPieBad : Table :=
  ⟨wideHeader, [pieRow "A" "12", pieRow "B" "abc"]⟩

/-- The coerced pie table obtained from `exPieWide`. -/
def exPieCoerced : Table := (pieCoerced exPieWide).getD ⟨[], []⟩

/-- The sorted pie table obtained from `exPieWide`. -/
def exPieSorted : Table := (pieSorted exPieWide).getD ⟨[], []⟩

/-- The rows surviving `dropna` on `exPieNA`. -/
def exPieDroppedNA : Table := (pieDropped exPieNA).getD ⟨[], []⟩

/-- The filtered table produced by the pie builder's mask on `exPieWide`. -/
def exPieFiltered : Table := (seriesEq largestCitySeries exPieWide).getD ⟨[], []⟩

/-- The wide table produced from `exRaw`. -/
def exWide : Table :=
  ((process_world_bank_data exRaw).getD (⟨[], []⟩, ⟨[], [], [], []⟩)).1

/-- The transposed table produced from `exRaw`. -/
def exTrans : TransTable :=
  ((process_world_bank_data exRaw).getD (⟨[], []⟩, ⟨[], [], [], []⟩)).2

/-- A store binding `world_bank_data` to a concrete wide table. -/
def exStore : Store := [("world_bank_data", exPieWide)]

/-- The store after running the bar builder on `exStore`. -/
def exStoreBar : Store := (barBuilderStore exStore).getD []

/-! ### Helper lemmas -/

/-- Filtering a duplicate-free header down to the labels outside a
duplicate-free sublist removes exactly one column per listed label. -/
theorem length_filter_not_contains (H L : List String) (hH : H.Nodup) (hL : L.Nodup)
    (hsub : ∀ l ∈ L, l ∈ H) :
    (H.filter (fun c => !L.contains c)).length = H.length - L.length := by
  have hperm : (H.filter (fun c => L.contains c)).Perm L := by
    refine List.perm_of_nodup_nodup_toFinset_eq (hH.filter _) hL ?_
    ext x
    simp only [List.mem_toFinset, List.mem_filter, List.contains, List.elem_iff]
    exact ⟨fun h => h.2, fun h => ⟨hsub x h, h⟩⟩
  have happ := (List.filter_append_perm (fun c => L.contains c) H).length_eq
  rw [List.length_append] at happ
  have h1 : (H.filter (fun c => L.contains c)).length = L.length := hperm.length_eq
  omega

/-- In a pairwise-related list, every element of the first `n` is related
to every element of the rest. -/
theorem pairwise_take_drop {α : Type} {R : α → α → Prop} {l : List α}
    (h : List.Pairwise R l) (n : ℕ) :
    ∀ x ∈ l.take n, ∀ y ∈ l.drop n, R x y := by
  have h2 : List.Pairwise R (l.take n ++ l.drop n) := by
    rw [List.take_append_drop]; exact h
  exact (List.pairwise_append.mp h2).2.2

/-- Distributing a common divide-and-scale over a list sum. -/
theorem sum_map_div_mul (l : List ℚ) (S : ℚ) :
    (l.map (fun v => v / S * 100)).sum = l.sum / S * 100 := by
  induction l with
  | nil => simp
  | cons x xs ih => simp only [List.map_cons, List.sum_cons, ih]; ring

/-- The percentage labels of a pie over values with nonzero total sum to
exactly 100. -/
theorem pieWedgePercents_sum (vs : List ℚ) (h : vs.sum ≠ 0) :
    (pieWedgePercents vs).sum = 100 := by
  unfold pieWedgePercents
  rw [sum_map_div_mul, div_self h, one_mul]

/-- Setting one name of the store leaves every other name's binding
untouched. -/
theorem getTable_setTable_ne (s : Store) (k k' : String) (t : Table) (h : k ≠ k') :
    Store.getTable (Store.setTable s k t) k' = Store.getTable s k' := by
  induction s with
  | nil =>
      have hkk : (k == k') = false := by simpa using h
      simp [Store.setTable, Store.getTable, List.find?, hkk]
  | cons p rest ih =>
      simp only [Store.setTable]
      split
      · next heq =>
          have hp : p.1 = k := by simpa using heq
          simp [Store.getTable, List.find?_cons, h, hp]
      · next heq =>
          simp only [Store.getTable, List.find?_cons]
          cases hpk : (p.1 == k') with
          | true => simp
          | false => simpa [Store.getTable] using ih

/-- Projecting the first components out of a filter on first components. -/
theorem filter_fst_map {α β : Type} (p : α → Bool) (g : α → β) (l : List (α × List Cell)) :
    (l.filter (fun q => p q.1)).map (fun q => g q.1) =
      ((l.map Prod.fst).filter p).map g := by
  induction l with
  | nil => rfl
  | cons x xs ih =>
      by_cases hx : p x.1 <;> simp [hx, ih]

/-- The index of the transposed view is the integer value of each numeric
wide-column label after the first. -/
theorem mkTranspose_index (w : Table) :
    (mkTranspose w).index =
      ((w.header.drop 1).filter isNumericStr).map (fun s => digitsVal s.data) := by
  unfold mkTranspose
  dsimp only
  rw [filter_fst_map isNumericStr (fun s => digitsVal s.data)]
  congr 1
  congr 1
  rw [List.map_drop, List.map_map]
  have hcomp :
      (Prod.fst ∘ fun p : ℕ × String => (p.2, getColumn w p.1)) = Prod.snd := rfl
  rw [hcomp, List.enum_map_snd]

/-! ### Claim theorems -/

/-- **C1**: for every parsed CSV with at least 5 rows, a duplicate-free
header and the 14 named columns present, `process_world_bank_data`
succeeds and its wide table has exactly `original_rows − 5` rows and
`original_columns − 14` columns. -/
theorem process_wide_shape (t : Table) (h5 : 5 ≤ t.rows.length) (hnd : t.header.Nodup)
    (hsub : ∀ l ∈ dropLabels, l ∈ t.header) :
    (process_world_bank_data t).map
        (fun p => (p.1.rows.length, p.1.header.length)) =
      some (t.rows.length - 5, t.header.length - 14) := by
  have hall : dropLabels.all (fun l => t.header.contains l) = true := by
    rw [List.all_eq_true]
    intro l hl
    simpa [List.contains, List.elem_iff] using hsub l hl
  unfold process_world_bank_data dropColumns
  dsimp only
  rw [hall]
  simp only [if_true, Option.map_some']
  congr 1
  rw [Prod.mk.injEq]
  refine ⟨?_, ?_⟩
  · simp only [renameCols, List.length_map, List.length_take]
    omega
  · simp only [renameCols, List.length_map]
    rw [length_filter_not_contains t.header dropLabels hnd (by decide) hsub]
    have h14 : dropLabels.length = 14 := rfl
    omega

/-- Witness for C1 at the seven-row raw table `exRaw`. -/
theorem process_wide_shape_witness :
    (process_world_bank_data exRaw).map
        (fun p => (p.1.rows.length, p.1.header.length)) =
      some (exRaw.rows.length - 5, exRaw.header.length - 14) :=
  process_wide_shape exRaw (by decide) (by decide) (by decide)

/-- **C3** (counterexample): `exShort` parses to three rows — fewer than
five — yet `process_world_bank_data` succeeds: the `.iloc[:-5]` slice
clamps instead of underflowing, refuting the claimed failure. -/
theorem process_short_counterexample :
    exShort.rows.length < 5 ∧ (process_world_bank_data exShort).isSome = true := by
  decide

/-- **C3** (amended): with fewer than five parsed rows (and the 14 named
columns present) the row drop clamps to the empty frame, so
`process_world_bank_data` succeeds and returns a wide table with zero
rows instead of raising. -/
theorem process_short_input (t : Table) (h5 : t.rows.length < 5)
    (hsub : ∀ l ∈ dropLabels, l ∈ t.header) :
    (process_world_bank_data t).map (fun p => p.1.rows.length) = some 0 := by
  have hall : dropLabels.all (fun l => t.header.contains l) = true := by
    rw [List.all_eq_true]
    intro l hl
    simpa [List.contains, List.elem_iff] using hsub l hl
  unfold process_world_bank_data dropColumns
  dsimp only
  rw [hall]
  simp only [if_true, Option.map_some']
  have hz : t.rows.length - 5 = 0 := by omega
  simp [renameCols, hz]

/-- Witness for the amended C3 at the three-row table `exShort`. -/
theorem process_short_witness :
    (process_world_bank_data exShort).map (fun p => p.1.rows.length) = some 0 :=
  process_short_input exShort (by decide) (by decide)

/-- **C4**: every retained wide-table column header is the corresponding
raw header cut at its first space — its first whitespace-delimited token
for World-Bank-style headers — e.g. `"2015 [YR2015]"` becomes `"2015"`. -/
theorem wide_header_first_token (t w : Table) (tr : TransTable)
    (h : process_world_bank_data t = some (w, tr)) :
    w.header = (t.header.filter (fun c => !dropLabels.contains c)).map splitSpaceHead ∧
    splitSpaceHead "2015 [YR2015]" = "2015" := by
  refine ⟨?_, by decide⟩
  unfold process_world_bank_data at h
  dsimp only at h
  cases hd : dropColumns { t with rows := t.rows.take (t.rows.length - 5) } dropLabels with
  | none => rw [hd] at h; exact absurd h (by simp)
  | some t2 =>
      rw [hd] at h
      dsimp only at h
      unfold dropColumns at hd
      split at hd
      · injection hd with hd
        injection h with h
        rw [Prod.mk.injEq] at h
        obtain ⟨hw, _⟩ := h
        rw [← hw, ← hd]
        rfl
      · exact absurd hd (by simp)

/-- Witness for C4 at `exRaw`. -/
theorem wide_header_witness :
    exWide.header =
      (exRaw.header.filter (fun c => !dropLabels.contains c)).map splitSpaceHead ∧
    splitSpaceHead "2015 [YR2015]" = "2015" :=
  wide_header_first_token exRaw exWide exTrans (by decide)

/-- **C5**: the transposed table's index is exactly the integer-coerced
list of numeric column labels of the wide table (skipping the first
column, which became the new header), and its `Years` column equals its
index everywhere. -/
theorem transposed_index_years (t w : Table) (tr : TransTable)
    (h : process_world_bank_data t = some (w, tr)) :
    tr.index = ((w.header.drop 1).filter isNumericStr).map (fun s => digitsVal s.data) ∧
    tr.years = tr.index := by
  unfold process_world_bank_data at h
  dsimp only at h
  cases hd : dropColumns { t with rows := t.rows.take (t.rows.length - 5) } dropLabels with
  | none => rw [hd] at h; exact absurd h (by simp)
  | some t2 =>
      rw [hd] at h
      dsimp only at h
      injection h with h
      rw [Prod.mk.injEq] at h
      obtain ⟨hw, htr⟩ := h
      rw [← htr, ← hw]
      exact ⟨mkTranspose_index (renameCols t2), rfl⟩

/-- Witness for C5 at `exRaw`. -/
theorem transposed_index_witness :
    exTrans.index =
      ((exWide.header.drop 1).filter isNumericStr).map (fun s => digitsVal s.data) ∧
    exTrans.years = exTrans.index :=
  transposed_index_years exRaw exWide exTrans (by decide)

/-- **C7**: a parsed CSV missing one of the 14 dropped columns makes the
column-drop step fail, `process_world_bank_data` returns nothing, and the
pipeline produces no output image. -/
theorem missing_column_aborts (t : Table)
    (h : ∃ l ∈ dropLabels, l ∉ t.header) :
    process_world_bank_data t = none ∧ runPipeline t = none := by
  have hall : dropLabels.all (fun l => t.header.contains l) = false := by
    rw [List.all_eq_false]
    obtain ⟨l, hl, hnl⟩ := h
    exact ⟨l, hl, by simpa [List.contains, List.elem_iff] using hnl⟩
  have hp : process_world_bank_data t = none := by
    unfold process_world_bank_data dropColumns
    dsimp only
    rw [hall]
    rfl
  exact ⟨hp, by unfold runPipeline; rw [hp]; rfl⟩

/-- Witness for C7 at the table `exMissing`, which lacks `Series Code`. -/
theorem missing_column_witness :
    process_world_bank_data exMissing = none ∧ runPipeline exMissing = none :=
  missing_column_aborts exMissing (by decide)

/-- **C8**: filtering rows on equality of `Series` with a fixed literal
is idempotent — applied to its own output it returns that output. -/
theorem seriesEq_idempotent (v : String) (t u : Table)
    (h : seriesEq v t = some u) : seriesEq v u = some u := by
  unfold seriesEq at h ⊢
  cases hi : colIdx? t "Series" with
  | none => rw [hi] at h; exact absurd h (by simp)
  | some i =>
      rw [hi] at h
      injection h with h
      have hi2 : colIdx? u "Series" = some i := by rw [← h]; exact hi
      rw [hi2, ← h]
      simp [List.filter_filter]

/-- Witness for C8: the pie builder's filter applied twice. -/
theorem seriesEq_idem_witness :
    seriesEq largestCitySeries exPieFiltered = some exPieFiltered :=
  seriesEq_idempotent largestCitySeries exPieWide exPieFiltered (by decide)

/-- **C10**: the bar-chart and line-chart data preparations (filter to
the urban-growth series, melt 2015–2019 over `Country`, coerce the
measure to float and `Year` to int) are the same transformation. -/
theorem bar_line_prep_equal :
    ∀ t : Table, barplot_urban_growth_data t = lineplot_urban_growth_data t :=
  fun _ => rfl

/-- **C2** (counterexample): in `exPieBad` the row whose 2019 value is
the present, non-numeric string `"abc"` survives the dropna step (both
rows remain), and the subsequent float coercion then raises — refuting
that non-numeric rows are dropped before coercion. -/
theorem pie_nonnumeric_counterexample :
    (pieDropped exPieBad).map (fun d => d.rows.length) = some 2 ∧
    pieCoerced exPieBad = none := by decide

/-- **C2** (amended): only rows whose 2019 value is missing are dropped
before the coercion — after the dropna step no missing cell remains in
the 2019 column, so the coercion never raises on a missing value; rows
with present non-numeric values are kept and still make it raise. -/
theorem pie_dropna_removes_missing (t d : Table) (i : ℕ)
    (hd : pieDropped t = some d) (hi : colIdx? d "2019" = some i) :
    d.rows.all (fun r => !(cellAt r i).isNA) = true := by
  unfold pieDropped pieFiltered seriesEq dropna at hd
  cases h1 : colIdx? t "Series" with
  | none => rw [h1] at hd; exact absurd hd (by simp)
  | some j =>
      rw [h1] at hd
      simp only [Option.some_bind] at hd
      cases h2 :
          colIdx? { t with rows := t.rows.filter (fun r => (cellAt r j).eqStr largestCitySeries) }
            "2019" with
      | none => rw [h2] at hd; exact absurd hd (by simp)
      | some i2 =>
          rw [h2] at hd
          injection hd with hd
          have h3 : colIdx? d "2019" = some i2 := by
            rw [← hd]; exact h2
          have hii : i2 = i := by
            have h4 : some i2 = some i := h3.symm.trans hi
            injection h4
          rw [← hd, hii]
          rw [List.all_eq_true]
          intro r hr
          exact (List.mem_filter.mp hr).2

/-- Witness for the amended C2 at `exPieNA`, whose middle row has a
missing 2019 value. -/
theorem pie_dropna_witness :
    exPieDroppedNA.rows.all (fun r => !(cellAt r 6).isNA) = true :=
  pie_dropna_removes_missing exPieNA exPieDroppedNA 6 (by decide) (by decide)

/-- **C6**: when at least six rows survive the dropna (six distinct
countries with non-missing 2019 values give at least six), the pie
builder's selection takes exactly six rows, they are a sub-arrangement of
the coerced rows sorted by descending 2019 value, every selected row's
value is at least every unselected row's, and the rendered wedge
percentages sum to exactly 100. -/
theorem pie_top6_selection (t c s : Table) (i : ℕ)
    (hc : pieCoerced t = some c)
    (hi : colIdx? c "2019" = some i)
    (hs : pieSorted t = some s)
    (h6 : 6 ≤ c.rows.length)
    (hsum : ((s.rows.take 6).map (keyVal i)).sum ≠ 0) :
    (s.rows.take 6).length = 6 ∧
    s.rows.Perm c.rows ∧
    List.Sorted (descBy i) (s.rows.take 6) ∧
    dominatesAll i (s.rows.take 6) (s.rows.drop 6) = true ∧
    (pieWedgePercents ((s.rows.take 6).map (keyVal i))).sum = 100 := by
  have hs' : s.rows = c.rows.insertionSort (descBy i) := by
    unfold pieSorted at hs
    rw [hc] at hs
    simp only [Option.some_bind] at hs
    unfold sortValuesDesc at hs
    rw [hi] at hs
    injection hs with hs
    rw [← hs]
  have hperm : s.rows.Perm c.rows := by
    rw [hs']; exact List.perm_insertionSort _ _
  have hsorted : List.Sorted (descBy i) s.rows := by
    rw [hs']
    haveI : IsTotal (List Cell) (descBy i) := ⟨fun a b => le_total _ _⟩
    haveI : IsTrans (List Cell) (descBy i) :=
      ⟨fun a b c h1 h2 => le_trans h2 h1⟩
    exact List.sorted_insertionSort _ _
  refine ⟨?_, hperm, ?_, ?_, pieWedgePercents_sum _ hsum⟩
  · rw [List.length_take, hperm.length_eq]
    omega
  · exact List.Pairwise.sublist (List.take_sublist 6 _) hsorted
  · simp only [dominatesAll, List.all_eq_true, decide_eq_true_eq]
    intro x hx y hy
    exact pairwise_take_drop hsorted 6 x hx y hy

/-- Witness for C6 at `exPieWide`, whose seven 2019 values are unsorted;
the six largest are 40, 35, 30, 25, 20, 15. -/
theorem pie_top6_witness :
    (exPieSorted.rows.take 6).length = 6 ∧
    exPieSorted.rows.Perm exPieCoerced.rows ∧
    List.Sorted (descBy 6) (exPieSorted.rows.take 6) ∧
    dominatesAll 6 (exPieSorted.rows.take 6) (exPieSorted.rows.drop 6) = true ∧
    (pieWedgePercents ((exPieSorted.rows.take 6).map (keyVal 6))).sum = 100 :=
  pie_top6_selection exPieWide exPieCoerced exPieSorted 6 (by decide) (by decide)
    (by decide) (by decide)
    (by
      have h : ((exPieSorted.rows.take 6).map (keyVal 6)) =
          [(40 : ℚ), 35, 30, 25, 20, 15] := by decide
      rw [h]
      norm_num)

/-- **C9**: every chart builder leaves the table bound to
`world_bank_data` exactly as it found it: the builders read it, derive
fresh frames (pandas boolean-mask selection and `melt` copy), and their
in-place column assignments target only those derived frames. -/
theorem builders_leave_world_bank_data_unchanged (s s' : Store)
    (h : barBuilderStore s = some s' ∨ lineBuilderStore s = some s' ∨
         pieBuilderStore s = some s' ∨ histBuilderStore s = some s') :
    Store.getTable s' "world_bank_data" = Store.getTable s "world_bank_data" := by
  rcases h with h | h | h | h
  · simp only [barBuilderStore, Option.bind_eq_some, Option.map_eq_some'] at h
    obtain ⟨wbd, _, d, _, m, _, m', _, m'', _, hfin⟩ := h
    rw [← hfin]
    rw [getTable_setTable_ne _ _ _ _ (by decide), getTable_setTable_ne _ _ _ _ (by decide)]
  · simp only [lineBuilderStore, Option.bind_eq_some, Option.map_eq_some'] at h
    obtain ⟨wbd, _, d, _, m, _, m', _, m'', _, hfin⟩ := h
    rw [← hfin]
    rw [getTable_setTable_ne _ _ _ _ (by decide), getTable_setTable_ne _ _ _ _ (by decide)]
  · simp only [pieBuilderStore, Option.bind_eq_some, Option.map_eq_some'] at h
    obtain ⟨wbd, _, d, _, d', _, d'', _, dFin, _, hfin⟩ := h
    rw [← hfin]
    rw [getTable_setTable_ne _ _ _ _ (by decide), getTable_setTable_ne _ _ _ _ (by decide)]
  · simp only [histBuilderStore, Option.bind_eq_some, Option.map_eq_some'] at h
    obtain ⟨wbd, _, d, _, m, _, m', _, m'', _, hfin⟩ := h
    rw [← hfin]
    rw [getTable_setTable_ne _ _ _ _ (by decide), getTable_setTable_ne _ _ _ _ (by decide)]

/-- Witness for C9: running the bar builder on a concrete store leaves
the `world_bank_data` binding unchanged. -/
theorem builders_unchanged_witness :
    Store.getTable exStoreBar "world_bank_data" =
      Store.getTable exStore "world_bank_data" :=
  builders_leave_world_bank_data_unchanged exStore exStoreBar (Or.inl (by decide))
